import Mathlib

/-!
Shallow embedding of the Vulkan bootstrap layer in `src/main.rs` of the
`vulkan-tutorial` repository: the `create_instance` builder, the
`debug_callback` diagnostics bridge, and the `App` lifecycle
(`App::create`, `App::destroy`), together with proofs of the spec claims.

External collaborators (the windowing toolkit, the driver loader and the
driver itself) are modelled as explicit inputs: the window-required
extension list, the enumerated layer list, the compile-time target-OS
flag, the loader version, and whether the driver accepts the assembled
creation request.
-/

namespace VkBootstrap

/-- Embedding of `vulkanalia::Version` (fields `major`, `minor`, `patch`;
its derived ordering is lexicographic on the fields in that order). -/
structure Version where
  major : Nat
  minor : Nat
  patch : Nat
deriving DecidableEq, Repr

/-- Lexicographic `<=` on versions, as in `vulkanalia::Version`'s `Ord`. -/
def Version.le (a b : Version) : Bool :=
  a.major < b.major ||
    (a.major == b.major &&
      (a.minor < b.minor || (a.minor == b.minor && a.patch ≤ b.patch)))

/-- `const PORTABILITY_MACOS_VERSION: Version = Version::new(1, 3, 216);`
(src/main.rs line 28). -/
def PORTABILITY_MACOS_VERSION : Version := ⟨1, 3, 216⟩

/-- `const VALIDATION_LAYER` = `b"VK_LAYER_KHRONOS_validation"`
(src/main.rs lines 31-32). -/
def VALIDATION_LAYER : String := "VK_LAYER_KHRONOS_validation"

/-- Name of `vk::EXT_DEBUG_UTILS_EXTENSION` (pushed at src/main.rs line 168). -/
def EXT_DEBUG_UTILS_EXTENSION : String := "VK_EXT_debug_utils"

/-- Name of `vk::KHR_GET_PHYSICAL_DEVICE_PROPERTIES2_EXTENSION`
(pushed at src/main.rs lines 174-178). -/
def KHR_GET_PHYSICAL_DEVICE_PROPERTIES2_EXTENSION : String :=
  "VK_KHR_get_physical_device_properties2"

/-- Name of `vk::KHR_PORTABILITY_ENUMERATION_EXTENSION`
(pushed at src/main.rs line 179). -/
def KHR_PORTABILITY_ENUMERATION_EXTENSION : String :=
  "VK_KHR_portability_enumeration"

/-- `vk::InstanceCreateFlags` as a Nat bitmask;
`ENUMERATE_PORTABILITY_KHR` is bit 0 and `empty()` is `0`. -/
def ENUMERATE_PORTABILITY_KHR : Nat := 1

/-- `vk::InstanceCreateFlags::empty()`. -/
def INSTANCE_CREATE_FLAGS_EMPTY : Nat := 0

/-- `vk::DebugUtilsMessageSeverityFlagsEXT::VERBOSE` (bit value 0x1). -/
def SEVERITY_VERBOSE : Nat := 0x1

/-- `vk::DebugUtilsMessageSeverityFlagsEXT::INFO` (bit value 0x10). -/
def SEVERITY_INFO : Nat := 0x10

/-- `vk::DebugUtilsMessageSeverityFlagsEXT::WARNING` (bit value 0x100). -/
def SEVERITY_WARNING : Nat := 0x100

/-- `vk::DebugUtilsMessageSeverityFlagsEXT::ERROR` (bit value 0x1000). -/
def SEVERITY_ERROR : Nat := 0x1000

/-- `vk::DebugUtilsMessageSeverityFlagsEXT::all()`: the union of the four
severity tiers. -/
def SEVERITY_ALL : Nat := 0x1111

/-- `vk::DebugUtilsMessageTypeFlagsEXT::all()`: the union of the GENERAL
(0x1), VALIDATION (0x2) and PERFORMANCE (0x4) message categories. -/
def MESSAGE_TYPE_ALL : Nat := 0x7

/-- `vk::FALSE`: the fixed do-not-abort result returned by the callback. -/
def VK_FALSE : Nat := 0

/-- Bitflag containment, as `Flags::contains` in vulkanalia:
`self & other == other`. -/
def flagsContains (s f : Nat) : Bool := s.land f == f

/-- Identifies the function pointer installed as the messenger callback
(`user_callback(Some(debug_callback))`, src/main.rs line 198). -/
inductive CallbackRef where
  | debugCallbackFn
deriving DecidableEq, Repr

/-- The fields of `vk::DebugUtilsMessengerCreateInfoEXT` set by the builder
chain at src/main.rs lines 192-198. -/
structure DebugMessengerInfo where
  message_severity : Nat
  message_type : Nat
  user_callback : CallbackRef
deriving DecidableEq, Repr

/-- The `debug_info` value built at src/main.rs lines 192-198:
severity mask `all()`, type mask `all()`, callback `debug_callback`. -/
def debug_info : DebugMessengerInfo :=
  { message_severity := SEVERITY_ALL
    message_type := MESSAGE_TYPE_ALL
    user_callback := CallbackRef.debugCallbackFn }

/-- The assembled `vk::InstanceCreateInfo` (src/main.rs lines 186-203):
enabled layer names, enabled extension names, creation flags, and the
optionally chained debug-messenger descriptor (`push_next`). -/
structure InstanceCreateInfo where
  layers : List String
  extensions : List String
  flags : Nat
  debugChain : Option DebugMessengerInfo
deriving DecidableEq, Repr

/-- Error outcomes of `create_instance` / `App::create`:
`layerUnavailable` is the `anyhow!("Validation layers requested but not
supported.")` return at src/main.rs line 152; `driverCreationFailed`
carries the driver's native result code from `entry.create_instance`
(line 206); `loaderUnavailable` is a failure of `LibloadingLoader::new` /
`Entry::new` in `App::create` (lines 95, 103). -/
inductive CreateErr where
  | layerUnavailable
  | driverCreationFailed (code : Nat)
  | loaderUnavailable
deriving DecidableEq, Repr

/-- The inputs `create_instance` draws on: the window's required extension
list (`vk_window::get_required_instance_extensions`), the driver's
enumerated layer names (`entry.enumerate_instance_layer_properties`), the
resolved `data.validation` flag, the compile-time `cfg!(target_os =
"macos")` flag, the loader version `entry.version()`, and whether the
driver accepts the final request (with its native code if it rejects). -/
structure CreateInput where
  windowExts : List String
  availableLayers : List String
  validation : Bool
  macosTarget : Bool
  entryVersion : Version
  driverAccepts : Bool
  driverCode : Nat
deriving DecidableEq, Repr

/-- Whether the portability branch at src/main.rs line 172 is taken:
`cfg!(target_os = "macos") && entry.version()? >= PORTABILITY_MACOS_VERSION`. -/
def portabilityActive (inp : CreateInput) : Bool :=
  inp.macosTarget && Version.le PORTABILITY_MACOS_VERSION inp.entryVersion

/-- The request-assembly part of `create_instance` (src/main.rs lines
144-203), up to but excluding the single driver call:

* collect `available_layers` and fail with `layerUnavailable` when
  validation is requested but `VALIDATION_LAYER` is absent (lines 145-153);
* `layers` = `[VALIDATION_LAYER]` when validating, else empty (155-159);
* `extensions` = window-required list, then `EXT_DEBUG_UTILS` when
  validating (162-169), then the portability pair when the portability
  predicate holds, which also sets the creation flag (171-183);
* chain `debug_info` onto the request iff validating (200-203). -/
def assembleRequest (inp : CreateInput) : Except CreateErr InstanceCreateInfo :=
  let available_layers := inp.availableLayers
  if inp.validation && !(available_layers.contains VALIDATION_LAYER) then
    Except.error CreateErr.layerUnavailable
  else
    let layers := if inp.validation then [VALIDATION_LAYER] else []
    let extensions0 := inp.windowExts
    let extensions1 :=
      if inp.validation then extensions0 ++ [EXT_DEBUG_UTILS_EXTENSION]
      else extensions0
    let extensions2 :=
      if portabilityActive inp then
        extensions1 ++ [KHR_GET_PHYSICAL_DEVICE_PROPERTIES2_EXTENSION,
          KHR_PORTABILITY_ENUMERATION_EXTENSION]
      else extensions1
    let flags :=
      if portabilityActive inp then ENUMERATE_PORTABILITY_KHR
      else INSTANCE_CREATE_FLAGS_EMPTY
    Except.ok
      { layers := layers
        extensions := extensions2
        flags := flags
        debugChain := if inp.validation then some debug_info else none }

/-- `create_instance` (src/main.rs lines 135-207): assemble the request,
then issue exactly one `entry.create_instance` driver call, which yields
the live instance (carrying the request it was created with) or the
driver's native failure code. The second component counts the driver
instance-creation calls issued. -/
def create_instance (inp : CreateInput) :
    Except CreateErr InstanceCreateInfo × Nat :=
  match assembleRequest inp with
  | Except.error e => (Except.error e, 0)
  | Except.ok info =>
    if inp.driverAccepts then (Except.ok info, 1)
    else (Except.error (CreateErr.driverCreationFailed inp.driverCode), 1)

/-- Host log levels used by the `log` crate macros in `debug_callback`. -/
inductive LogLevel where
  | errorLv
  | warnLv
  | debugLv
  | traceLv
deriving DecidableEq, Repr

/-- One structured call into the host logging facility: the level, the
category flags interpolated by `({:?})`, and the message string. -/
structure LogRecord where
  level : LogLevel
  category : Nat
  message : String
deriving DecidableEq, Repr

/-- `debug_callback` (src/main.rs lines 210-239): picks the log level by
testing the severity flags for ERROR, then WARNING, then INFO, falling
through to trace; forwards the category and message; returns `vk::FALSE`. -/
def debug_callback (severity : Nat) (type_ : Nat) (message : String) :
    LogRecord × Nat :=
  let level :=
    if flagsContains severity SEVERITY_ERROR then LogLevel.errorLv
    else if flagsContains severity SEVERITY_WARNING then LogLevel.warnLv
    else if flagsContains severity SEVERITY_INFO then LogLevel.debugLv
    else LogLevel.traceLv
  ({ level := level, category := type_, message := message }, VK_FALSE)

/-- `struct AppData { pub validation: bool }` (src/main.rs lines 126-129);
`Default` gives `validation = false`. -/
structure AppData where
  validation : Bool
deriving DecidableEq, Repr

/-- `AppData::default()`. -/
def AppData.mkDefault : AppData := { validation := false }

/-- `struct App` (src/main.rs lines 82-88): the window and entry are
opaque here; `vkInstance` embeds the source's `instance` field (a Lean
keyword), holding the created instance with the request it was created
with; `data` is the app's own `AppData` field. -/
structure App where
  window : Option Unit
  entry : Option Unit
  vkInstance : Option InstanceCreateInfo
  data : AppData
deriving DecidableEq, Repr

/-- `App::default()`. -/
def App.mkDefault : App :=
  { window := none, entry := none, vkInstance := none, data := AppData.mkDefault }

/-- `env::var("VK_ENABLE_VALIDATION").unwrap_or_else(|_| "".into())`
followed by `enable == "1" || enable == "true"`
(src/main.rs lines 97-98). -/
def resolveValidation (envVar : Option String) : Bool :=
  let enable := envVar.getD ""
  enable == "1" || enable == "true"

/-- The external inputs `App::create` depends on: whether the loader
resolves (`LibloadingLoader::new` / `Entry::new`), the environment
variable value, and the inputs threaded into `create_instance`. -/
structure CreateEnv where
  loaderOk : Bool
  envVar : Option String
  windowExts : List String
  availableLayers : List String
  macosTarget : Bool
  entryVersion : Version
  driverAccepts : Bool
  driverCode : Nat
deriving DecidableEq, Repr

/-- `App::create` (src/main.rs lines 92-110): build the loader, construct
a local `AppData::default()`, resolve its `validation` field from the
environment variable, set `self.entry`, and set `self.instance` from
`create_instance(window, entry, &mut data)`. The local `data` is dropped
at the end of the function; `self.data` is never written. Errors
propagate via `?` (in the model the partially mutated receiver on an
error path is not observed by any caller, so the error carries no state). -/
def App.create (a : App) (env : CreateEnv) : Except CreateErr App :=
  if !env.loaderOk then Except.error CreateErr.loaderUnavailable
  else
    let data : AppData :=
      { AppData.mkDefault with validation := resolveValidation env.envVar }
    let inp : CreateInput :=
      { windowExts := env.windowExts
        availableLayers := env.availableLayers
        validation := data.validation
        macosTarget := env.macosTarget
        entryVersion := env.entryVersion
        driverAccepts := env.driverAccepts
        driverCode := env.driverCode }
    match (create_instance inp).1 with
    | Except.error e => Except.error e
    | Except.ok info =>
      Except.ok { a with entry := some (), vkInstance := some info }

/-- Driver calls observable during teardown. -/
inductive DriverCall where
  | destroyInstance
  | destroyDebugUtilsMessenger
deriving DecidableEq, Repr

/-- `App::destroy` (src/main.rs lines 117-123): the body is exactly
`self.instance.as_ref().unwrap().destroy_instance(None)`. The `unwrap`
panics (modelled as `none`) when `self.instance` is `None`; otherwise the
single driver call `destroy_instance` is issued and no field of `self`
is modified (in particular `self.instance` keeps its handle). -/
def App.destroy (a : App) : Option (App × List DriverCall) :=
  match a.vkInstance with
  | none => none
  | some _ => some (a, [DriverCall.destroyInstance])

/-- C1: in every run where the resolved validation flag is false, the
extension list assembled by `create_instance` contains neither the
debug-utils extension name nor the validation layer name (given that the
windowing collaborator's required-extension list, an external input, does
not itself carry those names), and the enabled-layer list is empty. -/
theorem create_instance_no_validation_artifacts_when_disabled
    (inp : CreateInput) (hv : inp.validation = false)
    (h1 : EXT_DEBUG_UTILS_EXTENSION ∉ inp.windowExts)
    (h2 : VALIDATION_LAYER ∉ inp.windowExts)
    (info : InstanceCreateInfo) (h : assembleRequest inp = Except.ok info) :
    info.layers = [] ∧
    EXT_DEBUG_UTILS_EXTENSION ∉ info.extensions ∧
    VALIDATION_LAYER ∉ info.extensions := by
  unfold assembleRequest at h
  rw [hv] at h
  simp only [Bool.false_and, Bool.false_eq_true, if_false, if_neg,
    Except.ok.injEq] at h
  subst h
  cases hpa : portabilityActive inp <;> simp [hpa, List.mem_append, h1, h2]
  all_goals decide

/-- Concrete input for the validation-disabled run. -/
def inpW1 : CreateInput :=
  { windowExts := ["VK_KHR_surface"]
    availableLayers := []
    validation := false
    macosTarget := true
    entryVersion := ⟨1, 3, 216⟩
    driverAccepts := true
    driverCode := 0 }

/-- The request assembled from `inpW1`. -/
def infoW1 : InstanceCreateInfo :=
  { layers := []
    extensions := ["VK_KHR_surface", KHR_GET_PHYSICAL_DEVICE_PROPERTIES2_EXTENSION,
      KHR_PORTABILITY_ENUMERATION_EXTENSION]
    flags := ENUMERATE_PORTABILITY_KHR
    debugChain := none }

/-- Witness for C1 at the concrete input `inpW1`. -/
theorem create_instance_no_validation_artifacts_when_disabled_witness :
    inpW1.validation = false ∧
    EXT_DEBUG_UTILS_EXTENSION ∉ inpW1.windowExts ∧
    VALIDATION_LAYER ∉ inpW1.windowExts ∧
    assembleRequest inpW1 = Except.ok infoW1 ∧
    (infoW1.layers = [] ∧
      EXT_DEBUG_UTILS_EXTENSION ∉ infoW1.extensions ∧
      VALIDATION_LAYER ∉ infoW1.extensions) :=
  ⟨rfl, by decide, by decide, by rfl,
    create_instance_no_validation_artifacts_when_disabled inpW1 rfl
      (by decide) (by decide) infoW1 (by rfl)⟩

/-- C2: in every run where the resolved validation flag is true and the
validation layer is absent from the driver's enumerated layer list,
`create_instance` returns the layer-unavailable error and issues zero
driver instance-creation calls, so the caller receives nothing but the
error. -/
theorem create_instance_fails_before_driver_when_layer_missing
    (inp : CreateInput) (hv : inp.validation = true)
    (hl : inp.availableLayers.contains VALIDATION_LAYER = false) :
    (create_instance inp).1 = Except.error CreateErr.layerUnavailable ∧
    (create_instance inp).2 = 0 := by
  have hm : VALIDATION_LAYER ∉ inp.availableLayers := by simpa using hl
  simp [create_instance, assembleRequest, hv, hm]

/-- Concrete input for the missing-validation-layer run. -/
def inpW2 : CreateInput :=
  { windowExts := ["VK_KHR_surface"]
    availableLayers := ["VK_LAYER_LUNARG_api_dump"]
    validation := true
    macosTarget := false
    entryVersion := ⟨1, 0, 0⟩
    driverAccepts := true
    driverCode := 0 }

/-- Witness for C2 at the concrete input `inpW2`. -/
theorem create_instance_fails_before_driver_when_layer_missing_witness :
    inpW2.validation = true ∧
    inpW2.availableLayers.contains VALIDATION_LAYER = false ∧
    ((create_instance inpW2).1 = Except.error CreateErr.layerUnavailable ∧
      (create_instance inpW2).2 = 0) :=
  ⟨rfl, by decide,
    create_instance_fails_before_driver_when_layer_missing inpW2 rfl (by decide)⟩

/-- C3: the portability predicate is exactly "target OS is macOS and the
loader version is at least 1.3.216"; when it holds, the assembled request
carries the physical-device-properties-query extension and the
portability-enumeration extension exactly once each and the
portability-enumeration creation flag; when it does not hold, neither
extension appears and the creation flags are empty (given that the
window-required extension list, an external input, does not itself carry
the two names). -/
theorem create_instance_portability_extensions
    (inp : CreateInput) (info : InstanceCreateInfo)
    (h : assembleRequest inp = Except.ok info)
    (h1 : KHR_GET_PHYSICAL_DEVICE_PROPERTIES2_EXTENSION ∉ inp.windowExts)
    (h2 : KHR_PORTABILITY_ENUMERATION_EXTENSION ∉ inp.windowExts) :
    portabilityActive inp =
      (inp.macosTarget && Version.le ⟨1, 3, 216⟩ inp.entryVersion) ∧
    (portabilityActive inp = true →
      info.extensions.count KHR_GET_PHYSICAL_DEVICE_PROPERTIES2_EXTENSION = 1 ∧
      info.extensions.count KHR_PORTABILITY_ENUMERATION_EXTENSION = 1 ∧
      info.flags = ENUMERATE_PORTABILITY_KHR) ∧
    (portabilityActive inp = false →
      KHR_GET_PHYSICAL_DEVICE_PROPERTIES2_EXTENSION ∉ info.extensions ∧
      KHR_PORTABILITY_ENUMERATION_EXTENSION ∉ info.extensions ∧
      info.flags = INSTANCE_CREATE_FLAGS_EMPTY) := by
  have hc1 : List.count KHR_GET_PHYSICAL_DEVICE_PROPERTIES2_EXTENSION
      inp.windowExts = 0 := List.count_eq_zero.mpr h1
  have hc2 : List.count KHR_PORTABILITY_ENUMERATION_EXTENSION
      inp.windowExts = 0 := List.count_eq_zero.mpr h2
  refine ⟨rfl, ?_, ?_⟩ <;> intro hpa
  · unfold assembleRequest at h
    rw [hpa] at h
    by_cases hvl : inp.validation && !(inp.availableLayers.contains VALIDATION_LAYER)
    · rw [if_pos hvl] at h; exact absurd h (by simp)
    · rw [if_neg hvl] at h
      simp only [if_true, Except.ok.injEq] at h
      subst h
      cases hv : inp.validation <;>
        simp [hv, List.count_append, List.count_cons, hc1, hc2]
      all_goals decide
  · unfold assembleRequest at h
    rw [hpa] at h
    by_cases hvl : inp.validation && !(inp.availableLayers.contains VALIDATION_LAYER)
    · rw [if_pos hvl] at h; exact absurd h (by simp)
    · rw [if_neg hvl] at h
      simp only [Bool.false_eq_true, if_false, Except.ok.injEq] at h
      subst h
      cases hv : inp.validation <;>
        simp [hv, List.mem_append, h1, h2]
      all_goals decide

/-- Witness for C3 at the concrete input `inpW1` (portability active). -/
theorem create_instance_portability_extensions_witness :
    assembleRequest inpW1 = Except.ok infoW1 ∧
    KHR_GET_PHYSICAL_DEVICE_PROPERTIES2_EXTENSION ∉ inpW1.windowExts ∧
    KHR_PORTABILITY_ENUMERATION_EXTENSION ∉ inpW1.windowExts ∧
    (portabilityActive inpW1 =
        (inpW1.macosTarget && Version.le ⟨1, 3, 216⟩ inpW1.entryVersion) ∧
      (portabilityActive inpW1 = true →
        infoW1.extensions.count KHR_GET_PHYSICAL_DEVICE_PROPERTIES2_EXTENSION = 1 ∧
        infoW1.extensions.count KHR_PORTABILITY_ENUMERATION_EXTENSION = 1 ∧
        infoW1.flags = ENUMERATE_PORTABILITY_KHR) ∧
      (portabilityActive inpW1 = false →
        KHR_GET_PHYSICAL_DEVICE_PROPERTIES2_EXTENSION ∉ infoW1.extensions ∧
        KHR_PORTABILITY_ENUMERATION_EXTENSION ∉ infoW1.extensions ∧
        infoW1.flags = INSTANCE_CREATE_FLAGS_EMPTY)) :=
  ⟨by rfl, by decide, by decide,
    create_instance_portability_extensions inpW1 infoW1 (by rfl)
      (by decide) (by decide)⟩

/-- C4: the resolved validation flag is true exactly when the environment
variable read at bootstrap is the string "1" or the string "true"; any
other value, including the variable being unset, resolves it to false. -/
theorem resolveValidation_truthy_iff (envVar : Option String) :
    resolveValidation envVar = true ↔
      (envVar = some "1" ∨ envVar = some "true") := by
  cases envVar with
  | none => simp [resolveValidation]
  | some s => simp [resolveValidation]

/-- Witness for C4 at concrete inputs: the truthy `"1"`, a falsy value,
and the unset variable. -/
theorem resolveValidation_truthy_iff_witness :
    (resolveValidation (some "1") = true ↔
      (some "1" = some "1" ∨ (some "1" : Option String) = some "true")) ∧
    (resolveValidation (some "yes") = true ↔
      (some "yes" = some "1" ∨ (some "yes" : Option String) = some "true")) ∧
    (resolveValidation none = true ↔
      ((none : Option String) = some "1" ∨ (none : Option String) = some "true")) :=
  ⟨resolveValidation_truthy_iff (some "1"),
    resolveValidation_truthy_iff (some "yes"),
    resolveValidation_truthy_iff none⟩

/-- C5: in every run with the validation flag true, the validation layer
present in the enumerated layer list, and the portability predicate false,
`create_instance` succeeds when the driver accepts the request, the
extension list is the window-required extensions followed by the
debug-utils extension, the layer list is exactly the validation layer, and
the creation flags are empty. -/
theorem create_instance_validation_run_shape
    (inp : CreateInput) (hv : inp.validation = true)
    (hl : inp.availableLayers.contains VALIDATION_LAYER = true)
    (hp : portabilityActive inp = false)
    (hd : inp.driverAccepts = true) :
    create_instance inp =
      (Except.ok
        { layers := [VALIDATION_LAYER]
          extensions := inp.windowExts ++ [EXT_DEBUG_UTILS_EXTENSION]
          flags := INSTANCE_CREATE_FLAGS_EMPTY
          debugChain := some debug_info }, 1) := by
  have hm : VALIDATION_LAYER ∈ inp.availableLayers := by simpa using hl
  simp [create_instance, assembleRequest, hv, hm, hp, hd]

/-- Concrete input for the validation-enabled, layer-present,
non-portability run. -/
def inpW5 : CreateInput :=
  { windowExts := ["VK_KHR_surface", "VK_KHR_xcb_surface"]
    availableLayers := ["VK_LAYER_LUNARG_api_dump", VALIDATION_LAYER]
    validation := true
    macosTarget := false
    entryVersion := ⟨1, 3, 250⟩
    driverAccepts := true
    driverCode := 0 }

/-- Witness for C5 at the concrete input `inpW5`. -/
theorem create_instance_validation_run_shape_witness :
    inpW5.validation = true ∧
    inpW5.availableLayers.contains VALIDATION_LAYER = true ∧
    portabilityActive inpW5 = false ∧
    inpW5.driverAccepts = true ∧
    create_instance inpW5 =
      (Except.ok
        { layers := [VALIDATION_LAYER]
          extensions := inpW5.windowExts ++ [EXT_DEBUG_UTILS_EXTENSION]
          flags := INSTANCE_CREATE_FLAGS_EMPTY
          debugChain := some debug_info }, 1) :=
  ⟨rfl, by decide, by decide, rfl,
    create_instance_validation_run_shape inpW5 rfl (by decide) (by decide) rfl⟩

/-- Helper: the debug chain of a successfully assembled request is the
`debug_info` descriptor exactly when the validation flag is set. -/
theorem assembleRequest_ok_debugChain
    (inp : CreateInput) (info : InstanceCreateInfo)
    (h : assembleRequest inp = Except.ok info) :
    info.debugChain = if inp.validation then some debug_info else none := by
  unfold assembleRequest at h
  by_cases hvl : (inp.validation && !(inp.availableLayers.contains VALIDATION_LAYER)) = true
  · rw [if_pos hvl] at h; exact absurd h (by simp)
  · rw [if_neg hvl] at h
    simp only [Except.ok.injEq] at h
    subst h
    rfl

/-- C6: the debug-messenger descriptor is chained onto the assembled
creation request iff the validation flag is true, and the descriptor
always carries the all-tiers severity mask, the all-categories type mask,
and the `debug_callback` entry point. -/
theorem debug_messenger_chained_iff_validation
    (inp : CreateInput) (info : InstanceCreateInfo)
    (h : assembleRequest inp = Except.ok info) :
    (info.debugChain = some debug_info ↔ inp.validation = true) ∧
    debug_info.message_severity = SEVERITY_ALL ∧
    debug_info.message_type = MESSAGE_TYPE_ALL ∧
    debug_info.user_callback = CallbackRef.debugCallbackFn := by
  refine ⟨?_, rfl, rfl, rfl⟩
  rw [assembleRequest_ok_debugChain inp info h]
  cases hv : inp.validation <;> simp [hv]

/-- Witness for C6 at the concrete input `inpW5`. -/
theorem debug_messenger_chained_iff_validation_witness :
    assembleRequest inpW5 =
      Except.ok
        { layers := [VALIDATION_LAYER]
          extensions := inpW5.windowExts ++ [EXT_DEBUG_UTILS_EXTENSION]
          flags := INSTANCE_CREATE_FLAGS_EMPTY
          debugChain := some debug_info } ∧
    ((InstanceCreateInfo.debugChain
        { layers := [VALIDATION_LAYER]
          extensions := inpW5.windowExts ++ [EXT_DEBUG_UTILS_EXTENSION]
          flags := INSTANCE_CREATE_FLAGS_EMPTY
          debugChain := some debug_info } = some debug_info ↔
      inpW5.validation = true) ∧
      debug_info.message_severity = SEVERITY_ALL ∧
      debug_info.message_type = MESSAGE_TYPE_ALL ∧
      debug_info.user_callback = CallbackRef.debugCallbackFn) :=
  ⟨by rfl, debug_messenger_chained_iff_validation inpW5 _ (by rfl)⟩

/-- C7: `debug_callback` maps each severity tier 1:1 to the host log level
(error to error, warning to warn, info to debug, verbose to trace),
forwards the category flags and message to the logging facility on every
input, and returns the fixed do-not-abort result `vk::FALSE` on every
input. -/
theorem debug_callback_mapping_and_result :
    (∀ t m, (debug_callback SEVERITY_ERROR t m).1.level = LogLevel.errorLv) ∧
    (∀ t m, (debug_callback SEVERITY_WARNING t m).1.level = LogLevel.warnLv) ∧
    (∀ t m, (debug_callback SEVERITY_INFO t m).1.level = LogLevel.debugLv) ∧
    (∀ t m, (debug_callback SEVERITY_VERBOSE t m).1.level = LogLevel.traceLv) ∧
    (∀ s t m, (debug_callback s t m).1.category = t ∧
      (debug_callback s t m).1.message = m ∧
      (debug_callback s t m).2 = VK_FALSE) :=
  ⟨fun _ _ => rfl, fun _ _ => rfl, fun _ _ => rfl, fun _ _ => rfl,
    fun _ _ _ => ⟨rfl, rfl, rfl⟩⟩

/-- A live, validation-enabled `App` as produced by a successful
`App::create` run: the instance was created with the validation layer and
the chained debug descriptor, while `self.data` kept its default value
(the source never writes it). -/
def appLive : App :=
  { window := some ()
    entry := some ()
    vkInstance := some
      { layers := [VALIDATION_LAYER]
        extensions := ["VK_KHR_surface", EXT_DEBUG_UTILS_EXTENSION]
        flags := INSTANCE_CREATE_FLAGS_EMPTY
        debugChain := some debug_info }
    data := AppData.mkDefault }

/-- C8 counterexample: on a live, validation-enabled app, `App::destroy`
issues exactly the single driver call `destroy_instance`; the emitted call
sequence contains no diagnostics-handle release at all, so no
DiagnosticsHandle release precedes the instance destruction, contrary to
the claim. -/
theorem destroy_no_diagnostics_release_counterexample :
    App.destroy appLive = some (appLive, [DriverCall.destroyInstance]) ∧
    DriverCall.destroyDebugUtilsMessenger ∉ [DriverCall.destroyInstance] :=
  ⟨rfl, by decide⟩

/-- C8 amended: on every app holding a live instance, `App::destroy`
issues exactly one driver call, the instance destruction; the program
never creates a separate DiagnosticsHandle (the debug descriptor is only
chained into the instance-creation request), so the teardown sequence
contains no diagnostics release. -/
theorem destroy_issues_only_instance_destruction
    (a : App) (info : InstanceCreateInfo) (h : a.vkInstance = some info) :
    App.destroy a = some (a, [DriverCall.destroyInstance]) ∧
    DriverCall.destroyDebugUtilsMessenger ∉ [DriverCall.destroyInstance] := by
  refine ⟨?_, by decide⟩
  unfold App.destroy
  rw [h]

/-- Witness for the amended C8 at the concrete app `appLive`. -/
theorem destroy_issues_only_instance_destruction_witness :
    appLive.vkInstance = some
      { layers := [VALIDATION_LAYER]
        extensions := ["VK_KHR_surface", EXT_DEBUG_UTILS_EXTENSION]
        flags := INSTANCE_CREATE_FLAGS_EMPTY
        debugChain := some debug_info } ∧
    (App.destroy appLive = some (appLive, [DriverCall.destroyInstance]) ∧
      DriverCall.destroyDebugUtilsMessenger ∉ [DriverCall.destroyInstance]) :=
  ⟨rfl, destroy_issues_only_instance_destruction appLive _ rfl⟩

/-- C9 counterexample: detection of a double destroy would mean the second
`App::destroy` hits the `unwrap` panic (modelled as `none`) or at least
that the first destroy changes the controller state. Neither happens on
the live app: the first destroy returns the app unchanged (the `instance`
field still holds the handle), and the second destroy also returns `some`,
re-issuing the driver `destroy_instance` call without any state check or
assertion firing. -/
theorem destroy_twice_undetected_counterexample :
    App.destroy appLive = some (appLive, [DriverCall.destroyInstance]) ∧
    (App.destroy appLive).bind (fun p => App.destroy p.1) =
      some (appLive, [DriverCall.destroyInstance]) :=
  ⟨rfl, rfl⟩

/-- C9 amended: `App::destroy` leaves every field of the app unchanged (in
particular the stored instance handle stays `Some`), so a second destroy
passes the `unwrap` — the only check on the path — and issues the driver
destruction call again; the double-destroy precondition violation is not
detected by any state check or assertion. -/
theorem destroy_second_call_passes_unwrap
    (a : App) (info : InstanceCreateInfo) (h : a.vkInstance = some info) :
    App.destroy a = some (a, [DriverCall.destroyInstance]) ∧
    (App.destroy a).bind (fun p => App.destroy p.1) =
      some (a, [DriverCall.destroyInstance]) := by
  have h1 : App.destroy a = some (a, [DriverCall.destroyInstance]) := by
    unfold App.destroy; rw [h]
  exact ⟨h1, by rw [h1, Option.some_bind]; exact h1⟩

/-- Witness for the amended C9 at the concrete app `appLive`. -/
theorem destroy_second_call_passes_unwrap_witness :
    appLive.vkInstance = some
      { layers := [VALIDATION_LAYER]
        extensions := ["VK_KHR_surface", EXT_DEBUG_UTILS_EXTENSION]
        flags := INSTANCE_CREATE_FLAGS_EMPTY
        debugChain := some debug_info } ∧
    (App.destroy appLive = some (appLive, [DriverCall.destroyInstance]) ∧
      (App.destroy appLive).bind (fun p => App.destroy p.1) =
        some (appLive, [DriverCall.destroyInstance])) :=
  ⟨rfl, destroy_second_call_passes_unwrap appLive _ rfl⟩

/-- C10: `App::create` never writes the app's own `data` field — the
resolved validation flag lives only in the local `AppData` passed to
`create_instance` — so after a successful create the stored
`data.validation` is unchanged, and still the default `false` when the
run started from `App::default()`, regardless of the environment flag. -/
theorem app_create_never_writes_self_data
    (a a' : App) (env : CreateEnv)
    (h : App.create a env = Except.ok a') :
    a'.data = a.data ∧
    (a = App.mkDefault → a'.data.validation = false) := by
  unfold App.create at h
  split at h
  · exact absurd h (by simp)
  · dsimp only at h
    split at h
    · exact absurd h (by simp)
    · simp only [Except.ok.injEq] at h
      subst h
      exact ⟨rfl, fun ha => by rw [ha]; rfl⟩

/-- Concrete environment for the create run: loader resolves, the
environment flag is the truthy `"1"`, the validation layer is available,
and the driver accepts the request. -/
def envW10 : CreateEnv :=
  { loaderOk := true
    envVar := some "1"
    windowExts := ["VK_KHR_surface"]
    availableLayers := [VALIDATION_LAYER]
    macosTarget := false
    entryVersion := ⟨1, 3, 250⟩
    driverAccepts := true
    driverCode := 0 }

/-- The app produced by `App::create` from the default app under `envW10`. -/
def appW10 : App :=
  { window := none
    entry := some ()
    vkInstance := some
      { layers := [VALIDATION_LAYER]
        extensions := ["VK_KHR_surface", EXT_DEBUG_UTILS_EXTENSION]
        flags := INSTANCE_CREATE_FLAGS_EMPTY
        debugChain := some debug_info }
    data := AppData.mkDefault }

/-- Witness for C10 at the concrete environment `envW10`: the flag is the
truthy `"1"`, yet the created app's stored `data.validation` is `false`. -/
theorem app_create_never_writes_self_data_witness :
    App.create App.mkDefault envW10 = Except.ok appW10 ∧
    (appW10.data = App.mkDefault.data ∧
      (App.mkDefault = App.mkDefault → appW10.data.validation = false)) :=
  ⟨by rfl, app_create_never_writes_self_data App.mkDefault appW10 envW10 (by rfl)⟩

end VkBootstrap
